import Mathlib

/-!
Verification development for the node-logger-simple client SDK core.

This file shallowly embeds the two core modules of the repository:

* `RateLimiter` (lib/RateLimiter.js): token-bucket plus hourly-window
  admission control, timing recommendations for bulk sends.
* `ErrorHandler` (the shutdown coordinator): error classification over the
  error-class hierarchy of lib/errors.js, the rolling critical-error window,
  and idempotent process termination.

Modelling conventions:
* epoch-millisecond instants are `Int` (JS `Date.now()` values);
* JS numbers used in token arithmetic are `Rat` (the source's float literals
  `0.8`, `0.1` are the exact rationals `4/5`, `1/10`);
* a JS `Map` whose absent keys are read as `|| 0` is a total function with
  default value `0`;
* `process.exit` calls and armed exit timers are modelled as a count of
  process-termination commitments returned alongside the new state;
* informational message strings (error `message`, `recommendation`) carry no
  decision content and are not modelled.
-/

namespace LoggerSimple

/-- Structured payload of a thrown `RateLimitError` (lib/errors.js):
the `limit`, `remaining` and `resetTime` constructor arguments.
`resetTime` is an epoch-millisecond instant, fractional in the burst case. -/
structure RateLimitErr where
  limit : ℤ
  remaining : ℤ
  resetTime : ℚ
deriving DecidableEq

/-- State of a `RateLimiter` instance (lib/RateLimiter.js constructor).
`requestCounts` and `hourlyPeaks` are the hour-index-keyed Maps, modelled as
total functions with default `0`. -/
structure RateLimiterState where
  maxRequests : ℤ
  burstSize : ℤ
  enabled : Bool
  tokens : ℚ
  lastRefill : ℤ
  refillRate : ℚ
  requestCounts : ℤ → ℕ
  lastCleanup : ℤ
  warningThreshold : ℚ
  hasWarned : Bool
  totalRequests : ℕ
  blockedRequests : ℕ
  lastBlockedAt : Option ℤ
  hourlyPeaks : ℤ → ℕ

/-- Constructor options for `RateLimiter` (absent field = JS `undefined`). -/
structure RateLimiterOptions where
  maxRequests : Option ℤ := none
  burstSize : Option ℤ := none
  enabled : Option Bool := none

/-- Hour-bucket index: `Math.floor(now / (60*60*1000))`. -/
def hourIndex (now : ℤ) : ℤ := Int.fdiv now 3600000

/-- Constructor `new RateLimiter(options)` at instant `now` (`Date.now()`).
`options.maxRequests || 1000` and `options.burstSize || ...` treat the JS
falsy value `0` as absent. -/
def mkRateLimiter (o : RateLimiterOptions) (now : ℤ) : RateLimiterState :=
  let maxRequests : ℤ :=
    match o.maxRequests with
    | some m => if m = 0 then 1000 else m
    | none => 1000
  let defaultBurst : ℤ := max 10 ⌊(maxRequests : ℚ) * (1/10)⌋
  let burstSize : ℤ :=
    match o.burstSize with
    | some b => if b = 0 then defaultBurst else b
    | none => defaultBurst
  { maxRequests := maxRequests
    burstSize := burstSize
    enabled := o.enabled ≠ some false
    tokens := (burstSize : ℚ)
    lastRefill := now
    refillRate := (maxRequests : ℚ) / 3600000
    requestCounts := fun _ => 0
    lastCleanup := now
    warningThreshold := 4/5
    hasWarned := false
    totalRequests := 0
    blockedRequests := 0
    lastBlockedAt := none
    hourlyPeaks := fun _ => 0 }

/-- `_refillTokens(now)`: add `(now - lastRefill) * refillRate` tokens,
capped at `burstSize`; advance `lastRefill`. -/
def refillTokens (now : ℤ) (s : RateLimiterState) : RateLimiterState :=
  { s with
    tokens := min (s.burstSize : ℚ) (s.tokens + ((now - s.lastRefill : ℤ) : ℚ) * s.refillRate)
    lastRefill := now }

/-- `_cleanupOldCounts(now)`: throttled to once per 10 minutes; deletes
hour-count and peak entries older than 24 hours (deletion = resetting the
entry to the Map's default `0`). -/
def cleanupOldCounts (now : ℤ) (s : RateLimiterState) : RateLimiterState :=
  if now - s.lastCleanup < 600000 then s
  else
    let cutoffHour := hourIndex now - 24
    { s with
      requestCounts := fun h => if h < cutoffHour then 0 else s.requestCounts h
      hourlyPeaks := fun h => if h < cutoffHour then 0 else s.hourlyPeaks h
      lastCleanup := now }

/-- `_checkWarningThreshold(currentCount)`: latches `hasWarned` and signals
(returns `true`) the first time the current count reaches
`maxRequests * warningThreshold`. -/
def checkWarningThreshold (s : RateLimiterState) (currentCount : ℕ) :
    RateLimiterState × Bool :=
  if s.hasWarned = false ∧ (currentCount : ℚ) ≥ (s.maxRequests : ℚ) * s.warningThreshold then
    ({ s with hasWarned := true }, true)
  else (s, false)

/-- Outcome of one `checkRequest` call: normal return `true` (with the value
of the internal `_checkWarningThreshold` signal) or a thrown
`RateLimitError`. -/
inductive CheckOutcome where
  | allowed (warned : Bool)
  | rejected (e : RateLimitErr)
deriving DecidableEq

/-- Whether the outcome is an admission (no throw). -/
def CheckOutcome.isAllowed : CheckOutcome → Bool
  | .allowed _ => true
  | .rejected _ => false

/-- The warning signal carried by an admission; rejections never signal. -/
def CheckOutcome.warned : CheckOutcome → Bool
  | .allowed w => w
  | .rejected _ => false

/-- `checkRequest(cost)` at instant `now`: refill, throttled cleanup, the
hourly-cap check, then the token-bucket check, then consumption plus
bookkeeping.  Returns the mutated state and the outcome. -/
def checkRequest (s : RateLimiterState) (now : ℤ) (cost : ℚ) :
    RateLimiterState × CheckOutcome :=
  if s.enabled = false then
    ({ s with totalRequests := s.totalRequests + 1 }, .allowed false)
  else
    let s2 := cleanupOldCounts now (refillTokens now s)
    let currentHour := hourIndex now
    let currentHourCount := s2.requestCounts currentHour
    if (currentHourCount : ℤ) ≥ s2.maxRequests then
      ({ s2 with
          blockedRequests := s2.blockedRequests + 1
          lastBlockedAt := some now },
        .rejected
          ⟨s2.maxRequests, s2.maxRequests - (currentHourCount : ℤ),
            (((currentHour + 1) * 3600000 : ℤ) : ℚ)⟩)
    else if s2.tokens < cost then
      ({ s2 with
          blockedRequests := s2.blockedRequests + 1
          lastBlockedAt := some now },
        .rejected
          ⟨s2.burstSize, ⌊s2.tokens⌋, (now : ℚ) + (cost - s2.tokens) / s2.refillRate⟩)
    else
      let newCount := currentHourCount + 1
      let currentPeak := s2.hourlyPeaks currentHour
      let s3 :=
        { s2 with
          tokens := s2.tokens - cost
          requestCounts := fun h => if h = currentHour then newCount else s2.requestCounts h
          totalRequests := s2.totalRequests + 1
          hourlyPeaks :=
            if newCount > currentPeak then
              fun h => if h = currentHour then newCount else s2.hourlyPeaks h
            else s2.hourlyPeaks }
      let w := checkWarningThreshold s3 newCount
      (w.1, .allowed w.2)

/-- JS `Math.round`: round half toward positive infinity. -/
def jsRound (q : ℚ) : ℤ := ⌊q + 1/2⌋

/-- Return object of `getStatus()` (the `stats` copy is the state's own
statistics fields and is not duplicated here). -/
structure RateLimiterStatus where
  enabled : Bool
  maxRequestsPerHour : ℤ
  burstSize : ℤ
  currentHourRequests : ℕ
  remainingRequests : ℤ
  availableTokens : ℤ
  utilizationPercent : ℤ
  resetTime : ℤ
deriving DecidableEq

/-- `getStatus()` at instant `now`: reads the state after a refill. -/
def getStatus (s : RateLimiterState) (now : ℤ) : RateLimiterStatus :=
  let s1 := refillTokens now s
  let currentHour := hourIndex now
  let currentHourCount := s1.requestCounts currentHour
  { enabled := s1.enabled
    maxRequestsPerHour := s1.maxRequests
    burstSize := s1.burstSize
    currentHourRequests := currentHourCount
    remainingRequests := s1.maxRequests - (currentHourCount : ℤ)
    availableTokens := ⌊s1.tokens⌋
    utilizationPercent := jsRound (((currentHourCount : ℚ) / (s1.maxRequests : ℚ)) * 100)
    resetTime := (currentHour + 1) * 3600000 }

/-- `reset()` at instant `now`. -/
def reset (s : RateLimiterState) (now : ℤ) : RateLimiterState :=
  { s with
    tokens := (s.burstSize : ℚ)
    lastRefill := now
    requestCounts := fun _ => 0
    hasWarned := false
    totalRequests := 0
    blockedRequests := 0
    lastBlockedAt := none
    hourlyPeaks := fun _ => 0 }

/-- `updateConfig(options)`: live reconfiguration; clamps tokens to a new
burst size and unconditionally clears the warning flag. -/
def updateConfig (s : RateLimiterState) (o : RateLimiterOptions) : RateLimiterState :=
  let s1 :=
    match o.maxRequests with
    | some m => { s with maxRequests := m, refillRate := (m : ℚ) / 3600000 }
    | none => s
  let s2 :=
    match o.burstSize with
    | some b => { s1 with burstSize := b, tokens := min s1.tokens (b : ℚ) }
    | none => s1
  let s3 :=
    match o.enabled with
    | some e => { s2 with enabled := e }
    | none => s2
  { s3 with hasWarned := false }

/-- Return object of `calculateOptimalTiming(requestCount)`.  The immediate
branch leaves `batches`/`totalTime` absent (`none`). -/
structure TimingPlan where
  canProceed : Bool
  delay : ℤ
  batchSize : ℤ
  batches : Option ℤ
  totalTime : Option ℤ
deriving DecidableEq

/-- `calculateOptimalTiming(requestCount)` at instant `now`: immediate
approval when the count fits under `min(remainingRequests, availableTokens)`,
otherwise the 80%-margin batching plan.  The source divides by
`optimalBatchSize` with no guard; in this rational embedding `x / 0 = 0`. -/
def calculateOptimalTiming (s : RateLimiterState) (now : ℤ) (requestCount : ℤ) :
    TimingPlan :=
  let status := getStatus s now
  let safeRequestsRemaining := min status.remainingRequests status.availableTokens
  if requestCount ≤ safeRequestsRemaining then
    { canProceed := true, delay := 0, batchSize := requestCount,
      batches := none, totalTime := none }
  else
    let optimalBatchSize : ℤ := ⌊(safeRequestsRemaining : ℚ) * (4/5)⌋
    let batches : ℤ := ⌈(requestCount : ℚ) / (optimalBatchSize : ℚ)⌉
    let delayBetweenBatches : ℤ := ⌈(optimalBatchSize : ℚ) / s.refillRate⌉
    { canProceed := false, delay := delayBetweenBatches, batchSize := optimalBatchSize,
      batches := some batches, totalTime := some (batches * delayBetweenBatches) }

/-- Iterated `checkRequest(1)` calls at a fixed instant `now`: the state after
`n` calls (each call keeps the mutated state whether admitted or rejected). -/
def iterCheck (s : RateLimiterState) (now : ℤ) : ℕ → RateLimiterState
  | 0 => s
  | n + 1 => (checkRequest (iterCheck s now n) now 1).1

/-- Outcome of the `(n+1)`-th call in the `iterCheck` sequence (0-based). -/
def iterOutcome (s : RateLimiterState) (now : ℤ) (n : ℕ) : CheckOutcome :=
  (checkRequest (iterCheck s now n) now 1).2

/-- Fold of `checkRequest` over a list of `(now, cost)` calls, collecting the
outcomes. -/
def runChecks : RateLimiterState → List (ℤ × ℚ) → RateLimiterState × List CheckOutcome
  | s, [] => (s, [])
  | s, c :: cs =>
    let r := checkRequest s c.1 c.2
    let rest := runChecks r.1 cs
    (rest.1, r.2 :: rest.2)

/-- Concrete error classes of lib/errors.js.  Every class except `other`
extends `LoggerError`; none of the named subclasses has further subclasses. -/
inductive ErrorClass where
  | loggerError
  | validationError
  | networkError
  | rateLimitError
  | configurationError
  | authenticationError
  | applicationError
  | shutdownError
  | other
deriving DecidableEq

/-- JS `error instanceof LoggerError`: true for every class of the
lib/errors.js hierarchy. -/
def instanceofLoggerError : ErrorClass → Bool
  | .other => false
  | _ => true

/-- JS `error instanceof ApplicationError`. -/
def instanceofApplicationError : ErrorClass → Bool
  | .applicationError => true
  | _ => false

/-- JS `error instanceof AuthenticationError`. -/
def instanceofAuthenticationError : ErrorClass → Bool
  | .authenticationError => true
  | _ => false

/-- JS `error instanceof RateLimitError`. -/
def instanceofRateLimitError : ErrorClass → Bool
  | .rateLimitError => true
  | _ => false

/-- JS `error instanceof ShutdownError`. -/
def instanceofShutdownError : ErrorClass → Bool
  | .shutdownError => true
  | _ => false

/-- An error value as seen by the `ErrorHandler`: its dynamic class, its
`code` field, and (for `ShutdownError`) its embedded `exitCode`. -/
structure JsErr where
  cls : ErrorClass
  code : String
  exitCode : ℤ
deriving DecidableEq

/-- State of an `ErrorHandler` instance.  `shutdownTimeout` is the pending
graceful-exit timer (holding its exit code); `exitOnAuthError` is the raw
configuration field (absent = `undefined`).  The constructor defaults are
`maxCriticalErrors = 5` and `criticalErrorWindow = 60000`. -/
structure ErrorHandlerState where
  isShuttingDown : Bool
  shutdownTimeout : Option ℤ
  criticalErrorCount : ℕ
  maxCriticalErrors : ℕ
  criticalErrorWindow : ℤ
  criticalErrorTimes : List ℤ
  exitOnAuthError : Option Bool

/-- Constructor `new ErrorHandler(logger, config)`. -/
def mkErrorHandler (exitOnAuthError : Option Bool) : ErrorHandlerState :=
  { isShuttingDown := false
    shutdownTimeout := none
    criticalErrorCount := 0
    maxCriticalErrors := 5
    criticalErrorWindow := 60000
    criticalErrorTimes := []
    exitOnAuthError := exitOnAuthError }

/-- `_scheduleExit(exitCode, reason)`: no-op when already shutting down; else
latches `isShuttingDown` and arms the delayed-exit timer.  The second
component counts process-termination commitments (the armed timer). -/
def scheduleExit (exitCode : ℤ) (s : ErrorHandlerState) : ErrorHandlerState × ℕ :=
  if s.isShuttingDown then (s, 0)
  else ({ s with isShuttingDown := true, shutdownTimeout := some exitCode }, 1)

/-- `_forceExit(exitCode, reason)`: no-op when already shutting down; else
latches `isShuttingDown`, clears any pending timer and exits immediately.
The second component counts process-termination commitments
(the `process.exit` call). -/
def forceExit (exitCode : ℤ) (s : ErrorHandlerState) : ErrorHandlerState × ℕ :=
  if s.isShuttingDown then (s, 0)
  else ({ s with isShuttingDown := true, shutdownTimeout := none }, 1)

/-- One shutdown request in a `_scheduleExit`/`_forceExit` call sequence. -/
inductive ExitCall where
  | schedule (exitCode : ℤ)
  | force (exitCode : ℤ)
deriving DecidableEq

/-- Apply one shutdown request. -/
def applyExitCall (s : ErrorHandlerState) : ExitCall → ErrorHandlerState × ℕ
  | .schedule k => scheduleExit k s
  | .force k => forceExit k s

/-- Run a sequence of shutdown requests, summing the termination
commitments. -/
def runExitCalls : ErrorHandlerState → List ExitCall → ErrorHandlerState × ℕ
  | s, [] => (s, 0)
  | s, c :: cs =>
    let r := applyExitCall s c
    let rest := runExitCalls r.1 cs
    (rest.1, r.2 + rest.2)

/-- `_trackCriticalError()` at instant `now`: append `now`, drop entries
outside the rolling window (strict `now - time < criticalErrorWindow`),
recompute the count. -/
def trackCriticalError (now : ℤ) (s : ErrorHandlerState) : ErrorHandlerState :=
  let kept := (s.criticalErrorTimes ++ [now]).filter
    (fun t => decide (now - t < s.criticalErrorWindow))
  { s with criticalErrorTimes := kept, criticalErrorCount := kept.length }

/-- `_isCriticalError(error)`: the fatal-by-class checks, or a `code` of
`CRITICAL_ERROR` / `FATAL_ERROR`. -/
def isCriticalError (e : JsErr) : Bool :=
  instanceofApplicationError e.cls || instanceofAuthenticationError e.cls ||
    instanceofShutdownError e.cls ||
    (decide (e.code = "CRITICAL_ERROR") || decide (e.code = "FATAL_ERROR"))

/-- Result of one `handleError` call: the mutated handler state, the returned
`continues` boolean, and the list of shutdown invocations the call made. -/
structure HandleResult where
  state : ErrorHandlerState
  continues : Bool
  exits : List ExitCall

/-- `handleError(error, context)` at instant `now`: the `instanceof`
dispatch chain (Application, Authentication, RateLimit, Shutdown, generic
LoggerError, anything else), with each branch's state effects.  The
logging side effects of each branch touch no handler state and are not
modelled. -/
def handleError (s : ErrorHandlerState) (now : ℤ) (e : JsErr) : HandleResult :=
  if instanceofApplicationError e.cls then
    { state := (forceExit 1 s).1, continues := false, exits := [.force 1] }
  else if instanceofAuthenticationError e.cls then
    if s.exitOnAuthError ≠ some false then
      { state := (scheduleExit 1 s).1, continues := false, exits := [.schedule 1] }
    else
      { state := s, continues := true, exits := [] }
  else if instanceofRateLimitError e.cls then
    { state := s, continues := true, exits := [] }
  else if instanceofShutdownError e.cls then
    let code := if e.exitCode = 0 then 1 else e.exitCode
    { state := (forceExit code s).1, continues := false, exits := [.force code] }
  else if instanceofLoggerError e.cls then
    if isCriticalError e then
      let s1 := trackCriticalError now s
      if s1.criticalErrorCount ≥ s1.maxCriticalErrors then
        { state := (scheduleExit 1 s1).1, continues := false, exits := [.schedule 1] }
      else
        { state := s1, continues := true, exits := [] }
    else
      { state := s, continues := true, exits := [] }
  else
    { state := s, continues := true, exits := [] }

/-- `cancelShutdown()` (test-only): clears the pending timer and resets
`isShuttingDown`. -/
def cancelShutdown (s : ErrorHandlerState) : ErrorHandlerState :=
  { s with shutdownTimeout := none, isShuttingDown := false }

/-- `cleanup()`: detaches the global process hooks (not modelled), clears the
pending timer, and — per the source's last line — resets `isShuttingDown`. -/
def cleanup (s : ErrorHandlerState) : ErrorHandlerState :=
  { s with shutdownTimeout := none, isShuttingDown := false }

/-- Fold of `handleError` over one fixed error fed at a list of instants,
collecting the returned `continues` booleans. -/
def handleErrSeq (e : JsErr) : ErrorHandlerState → List ℤ → ErrorHandlerState × List Bool
  | s, [] => (s, [])
  | s, t :: ts =>
    let r := handleError s t e
    let rest := handleErrSeq e r.state ts
    (rest.1, r.continues :: rest.2)

section RateLimiterLemmas

variable (s : RateLimiterState) (now : ℤ)

@[simp] lemma refillTokens_enabled : (refillTokens now s).enabled = s.enabled := rfl

@[simp] lemma refillTokens_maxRequests : (refillTokens now s).maxRequests = s.maxRequests := rfl

@[simp] lemma refillTokens_burstSize : (refillTokens now s).burstSize = s.burstSize := rfl

@[simp] lemma refillTokens_refillRate : (refillTokens now s).refillRate = s.refillRate := rfl

@[simp] lemma refillTokens_requestCounts :
    (refillTokens now s).requestCounts = s.requestCounts := rfl

@[simp] lemma refillTokens_hasWarned : (refillTokens now s).hasWarned = s.hasWarned := rfl

@[simp] lemma refillTokens_blockedRequests :
    (refillTokens now s).blockedRequests = s.blockedRequests := rfl

@[simp] lemma refillTokens_totalRequests :
    (refillTokens now s).totalRequests = s.totalRequests := rfl

@[simp] lemma refillTokens_lastRefill : (refillTokens now s).lastRefill = now := rfl

lemma refillTokens_tokens :
    (refillTokens now s).tokens =
      min (s.burstSize : ℚ) (s.tokens + ((now - s.lastRefill : ℤ) : ℚ) * s.refillRate) := rfl

/-- With no elapsed time and an in-range bucket, a refill leaves the token
count unchanged. -/
lemma refillTokens_tokens_noop (hlr : s.lastRefill = now)
    (hb : s.tokens ≤ (s.burstSize : ℚ)) : (refillTokens now s).tokens = s.tokens := by
  rw [refillTokens_tokens, hlr]
  simp [hb]

@[simp] lemma cleanupOldCounts_enabled : (cleanupOldCounts now s).enabled = s.enabled := by
  unfold cleanupOldCounts; split <;> rfl

@[simp] lemma cleanupOldCounts_maxRequests :
    (cleanupOldCounts now s).maxRequests = s.maxRequests := by
  unfold cleanupOldCounts; split <;> rfl

@[simp] lemma cleanupOldCounts_burstSize :
    (cleanupOldCounts now s).burstSize = s.burstSize := by
  unfold cleanupOldCounts; split <;> rfl

@[simp] lemma cleanupOldCounts_refillRate :
    (cleanupOldCounts now s).refillRate = s.refillRate := by
  unfold cleanupOldCounts; split <;> rfl

@[simp] lemma cleanupOldCounts_tokens : (cleanupOldCounts now s).tokens = s.tokens := by
  unfold cleanupOldCounts; split <;> rfl

@[simp] lemma cleanupOldCounts_lastRefill :
    (cleanupOldCounts now s).lastRefill = s.lastRefill := by
  unfold cleanupOldCounts; split <;> rfl

@[simp] lemma cleanupOldCounts_hasWarned :
    (cleanupOldCounts now s).hasWarned = s.hasWarned := by
  unfold cleanupOldCounts; split <;> rfl

@[simp] lemma cleanupOldCounts_blockedRequests :
    (cleanupOldCounts now s).blockedRequests = s.blockedRequests := by
  unfold cleanupOldCounts; split <;> rfl

@[simp] lemma cleanupOldCounts_totalRequests :
    (cleanupOldCounts now s).totalRequests = s.totalRequests := by
  unfold cleanupOldCounts; split <;> rfl

/-- Cleanup only deletes hour buckets at least 24 hours old, so the
current-hour count is never touched. -/
@[simp] lemma cleanupOldCounts_counts_current :
    (cleanupOldCounts now s).requestCounts (hourIndex now) =
      s.requestCounts (hourIndex now) := by
  unfold cleanupOldCounts; split
  · rfl
  · show (if hourIndex now < hourIndex now - 24 then 0 else s.requestCounts (hourIndex now)) = _
    rw [if_neg (by omega)]

@[simp] lemma checkWarningThreshold_tokens (s : RateLimiterState) (c : ℕ) :
    (checkWarningThreshold s c).1.tokens = s.tokens := by
  unfold checkWarningThreshold; split <;> rfl

@[simp] lemma checkWarningThreshold_requestCounts (s : RateLimiterState) (c : ℕ) :
    (checkWarningThreshold s c).1.requestCounts = s.requestCounts := by
  unfold checkWarningThreshold; split <;> rfl

@[simp] lemma checkWarningThreshold_enabled (s : RateLimiterState) (c : ℕ) :
    (checkWarningThreshold s c).1.enabled = s.enabled := by
  unfold checkWarningThreshold; split <;> rfl

@[simp] lemma checkWarningThreshold_lastRefill (s : RateLimiterState) (c : ℕ) :
    (checkWarningThreshold s c).1.lastRefill = s.lastRefill := by
  unfold checkWarningThreshold; split <;> rfl

@[simp] lemma checkWarningThreshold_maxRequests (s : RateLimiterState) (c : ℕ) :
    (checkWarningThreshold s c).1.maxRequests = s.maxRequests := by
  unfold checkWarningThreshold; split <;> rfl

@[simp] lemma checkWarningThreshold_burstSize (s : RateLimiterState) (c : ℕ) :
    (checkWarningThreshold s c).1.burstSize = s.burstSize := by
  unfold checkWarningThreshold; split <;> rfl

@[simp] lemma checkWarningThreshold_refillRate (s : RateLimiterState) (c : ℕ) :
    (checkWarningThreshold s c).1.refillRate = s.refillRate := by
  unfold checkWarningThreshold; split <;> rfl

/-- Once the warning flag is latched, `_checkWarningThreshold` is a complete
no-op that signals nothing. -/
lemma checkWarningThreshold_already (s : RateLimiterState) (c : ℕ)
    (h : s.hasWarned = true) : checkWarningThreshold s c = (s, false) := by
  unfold checkWarningThreshold
  rw [if_neg]
  simp [h]

end RateLimiterLemmas

section CheckRequestStep

/-- An admitted `checkRequest` at an instant with no elapsed refill time:
outcome, token consumption, current-hour increment, and the configuration
fields it leaves unchanged. -/
lemma checkRequest_consume (s : RateLimiterState) (now : ℤ) (cost : ℚ)
    (hen : s.enabled = true) (hlr : s.lastRefill = now)
    (htok : s.tokens ≤ (s.burstSize : ℚ))
    (hhour : (s.requestCounts (hourIndex now) : ℤ) < s.maxRequests)
    (hcost : cost ≤ s.tokens) :
    ((checkRequest s now cost).2).isAllowed = true
    ∧ (checkRequest s now cost).1.tokens = s.tokens - cost
    ∧ (checkRequest s now cost).1.requestCounts (hourIndex now)
        = s.requestCounts (hourIndex now) + 1
    ∧ (checkRequest s now cost).1.enabled = true
    ∧ (checkRequest s now cost).1.lastRefill = now
    ∧ (checkRequest s now cost).1.maxRequests = s.maxRequests
    ∧ (checkRequest s now cost).1.burstSize = s.burstSize := by
  have htok3 : (refillTokens now s).tokens = s.tokens :=
    refillTokens_tokens_noop s now hlr htok
  simp only [checkRequest, hen, Bool.true_eq_false, if_false,
    cleanupOldCounts_counts_current, refillTokens_requestCounts,
    cleanupOldCounts_maxRequests, refillTokens_maxRequests,
    cleanupOldCounts_tokens, htok3, ge_iff_le]
  rw [if_neg (not_le.mpr hhour), if_neg (not_lt.mpr hcost)]
  refine ⟨rfl, ?_, ?_, ?_, ?_, ?_, ?_⟩ <;> simp [htok3, hen]

/-- A burst-rejected `checkRequest` at an instant with no elapsed refill
time: outcome, and the fields the rejection leaves unchanged. -/
lemma checkRequest_burst_reject (s : RateLimiterState) (now : ℤ) (cost : ℚ)
    (hen : s.enabled = true) (hlr : s.lastRefill = now)
    (htok : s.tokens ≤ (s.burstSize : ℚ))
    (hhour : (s.requestCounts (hourIndex now) : ℤ) < s.maxRequests)
    (hcost : s.tokens < cost) :
    ((checkRequest s now cost).2).isAllowed = false
    ∧ (checkRequest s now cost).1.tokens = s.tokens
    ∧ (checkRequest s now cost).1.requestCounts (hourIndex now)
        = s.requestCounts (hourIndex now)
    ∧ (checkRequest s now cost).1.enabled = true
    ∧ (checkRequest s now cost).1.lastRefill = now
    ∧ (checkRequest s now cost).1.maxRequests = s.maxRequests
    ∧ (checkRequest s now cost).1.burstSize = s.burstSize := by
  have htok3 : (refillTokens now s).tokens = s.tokens :=
    refillTokens_tokens_noop s now hlr htok
  simp only [checkRequest, hen, Bool.true_eq_false, if_false,
    cleanupOldCounts_counts_current, refillTokens_requestCounts,
    cleanupOldCounts_maxRequests, refillTokens_maxRequests,
    cleanupOldCounts_tokens, htok3, ge_iff_le]
  rw [if_neg (not_le.mpr hhour), if_pos hcost]
  refine ⟨rfl, ?_, ?_, ?_, ?_, ?_, ?_⟩ <;> simp [htok3, hen]

/-- Invariant of the fixed-instant `checkRequest(1)` iteration: with
`F = ⌊tokens⌋`, after `n` calls exactly `min n F` have been admitted, each
consuming one token and one hourly slot. -/
lemma iterCheck_invariant (s : RateLimiterState) (now : ℤ)
    (hen : s.enabled = true) (hlr : s.lastRefill = now)
    (h0 : 0 ≤ s.tokens) (htok : s.tokens ≤ (s.burstSize : ℚ))
    (hroom : (s.requestCounts (hourIndex now) : ℤ) + ⌊s.tokens⌋ < s.maxRequests) :
    ∀ n : ℕ,
      (iterCheck s now n).tokens = s.tokens - (min n ⌊s.tokens⌋.toNat : ℕ)
      ∧ (iterCheck s now n).requestCounts (hourIndex now)
          = s.requestCounts (hourIndex now) + min n ⌊s.tokens⌋.toNat
      ∧ (iterCheck s now n).enabled = true
      ∧ (iterCheck s now n).lastRefill = now
      ∧ (iterCheck s now n).maxRequests = s.maxRequests
      ∧ (iterCheck s now n).burstSize = s.burstSize := by
  have hFz : ((⌊s.tokens⌋.toNat : ℤ)) = ⌊s.tokens⌋ :=
    Int.toNat_of_nonneg (Int.floor_nonneg.mpr h0)
  have hFle : ((⌊s.tokens⌋.toNat : ℕ) : ℚ) ≤ s.tokens := by
    have h1 : ((⌊s.tokens⌋ : ℤ) : ℚ) ≤ s.tokens := Int.floor_le s.tokens
    rw [← hFz] at h1
    exact_mod_cast h1
  have hFgt : s.tokens < ((⌊s.tokens⌋.toNat : ℕ) : ℚ) + 1 := by
    have h1 : s.tokens < ((⌊s.tokens⌋ : ℤ) : ℚ) + 1 := Int.lt_floor_add_one s.tokens
    rw [← hFz] at h1
    exact_mod_cast h1
  intro n
  induction n with
  | zero => simp [iterCheck, hen, hlr]
  | succ n ih =>
    obtain ⟨htokn, hcnt, henb, hlrn, hmax, hburst⟩ := ih
    by_cases hn : n < ⌊s.tokens⌋.toNat
    · have hmin : min n ⌊s.tokens⌋.toNat = n := min_eq_left (le_of_lt hn)
      have hminS : min (n + 1) ⌊s.tokens⌋.toNat = n + 1 := min_eq_left hn
      have htokn2 : (iterCheck s now n).tokens = s.tokens - (n : ℚ) := by
        rw [htokn, hmin]
      have hcost : (1 : ℚ) ≤ (iterCheck s now n).tokens := by
        rw [htokn2]
        have hn1 : ((n : ℚ) + 1) ≤ ((⌊s.tokens⌋.toNat : ℕ) : ℚ) := by
          exact_mod_cast Nat.succ_le_of_lt hn
        linarith [hFle]
      have htokB : (iterCheck s now n).tokens ≤ ((iterCheck s now n).burstSize : ℚ) := by
        rw [htokn2, hburst]
        have : (0 : ℚ) ≤ (n : ℚ) := by positivity
        linarith [htok]
      have hhourn : ((iterCheck s now n).requestCounts (hourIndex now) : ℤ)
          < (iterCheck s now n).maxRequests := by
        rw [hcnt, hmax, hmin]
        have hnF : (n : ℤ) < ⌊s.tokens⌋ := by omega
        push_cast
        omega
      obtain ⟨ha, htk, hct, he, hl, hm, hb⟩ :=
        checkRequest_consume (iterCheck s now n) now 1 henb hlrn htokB hhourn hcost
      refine ⟨?_, ?_, ?_, ?_, ?_, ?_⟩
      · show (checkRequest (iterCheck s now n) now 1).1.tokens = _
        rw [htk, htokn2, hminS]
        push_cast
        ring
      · show (checkRequest (iterCheck s now n) now 1).1.requestCounts (hourIndex now) = _
        rw [hct, hcnt, hmin, hminS]
        omega
      · exact he
      · exact hl
      · rw [show (iterCheck s now (n + 1)).maxRequests
            = (checkRequest (iterCheck s now n) now 1).1.maxRequests from rfl, hm, hmax]
      · rw [show (iterCheck s now (n + 1)).burstSize
            = (checkRequest (iterCheck s now n) now 1).1.burstSize from rfl, hb, hburst]
    · have hge : ⌊s.tokens⌋.toNat ≤ n := le_of_not_lt hn
      have hmin : min n ⌊s.tokens⌋.toNat = ⌊s.tokens⌋.toNat := min_eq_right hge
      have hminS : min (n + 1) ⌊s.tokens⌋.toNat = ⌊s.tokens⌋.toNat :=
        min_eq_right (le_trans hge (Nat.le_succ n))
      have htokn2 : (iterCheck s now n).tokens
          = s.tokens - ((⌊s.tokens⌋.toNat : ℕ) : ℚ) := by
        rw [htokn, hmin]
      have hcost : (iterCheck s now n).tokens < 1 := by
        rw [htokn2]
        linarith [hFgt]
      have htokB : (iterCheck s now n).tokens ≤ ((iterCheck s now n).burstSize : ℚ) := by
        rw [htokn2, hburst]
        have : (0 : ℚ) ≤ ((⌊s.tokens⌋.toNat : ℕ) : ℚ) := by positivity
        linarith [htok]
      have hhourn : ((iterCheck s now n).requestCounts (hourIndex now) : ℤ)
          < (iterCheck s now n).maxRequests := by
        rw [hcnt, hmax, hmin]
        push_cast
        omega
      obtain ⟨ha, htk, hct, he, hl, hm, hb⟩ :=
        checkRequest_burst_reject (iterCheck s now n) now 1 henb hlrn htokB hhourn hcost
      refine ⟨?_, ?_, ?_, ?_, ?_, ?_⟩
      · show (checkRequest (iterCheck s now n) now 1).1.tokens = _
        rw [htk, htokn2, hminS]
      · show (checkRequest (iterCheck s now n) now 1).1.requestCounts (hourIndex now) = _
        rw [hct, hcnt, hmin, hminS]
      · exact he
      · exact hl
      · rw [show (iterCheck s now (n + 1)).maxRequests
            = (checkRequest (iterCheck s now n) now 1).1.maxRequests from rfl, hm, hmax]
      · rw [show (iterCheck s now (n + 1)).burstSize
            = (checkRequest (iterCheck s now n) now 1).1.burstSize from rfl, hb, hburst]

end CheckRequestStep

/-- Claim C2: with rate limiting enabled, initial token count `t`
(`0 ≤ t ≤ burstSize`), no intervening time advance, and enough hourly
headroom, exactly `⌊t⌋` of the repeated `checkRequest(1)` calls succeed — the
`i`-th call (0-based) is admitted iff `i < ⌊t⌋` — and the token comparison is
strict, so a request whose cost exactly equals the available tokens is
admitted. -/
theorem claim_c2_token_bucket_floor (s : RateLimiterState) (now : ℤ)
    (hen : s.enabled = true) (hlr : s.lastRefill = now)
    (h0 : 0 ≤ s.tokens) (htok : s.tokens ≤ (s.burstSize : ℚ))
    (hroom : (s.requestCounts (hourIndex now) : ℤ) + ⌊s.tokens⌋ < s.maxRequests) :
    (∀ i : ℕ, (iterOutcome s now i).isAllowed = true ↔ (i : ℤ) < ⌊s.tokens⌋)
    ∧ (∀ cost : ℚ, cost = s.tokens →
        ((checkRequest s now cost).2).isAllowed = true) := by
  have hFz : ((⌊s.tokens⌋.toNat : ℤ)) = ⌊s.tokens⌋ :=
    Int.toNat_of_nonneg (Int.floor_nonneg.mpr h0)
  have hFle : ((⌊s.tokens⌋.toNat : ℕ) : ℚ) ≤ s.tokens := by
    have h1 : ((⌊s.tokens⌋ : ℤ) : ℚ) ≤ s.tokens := Int.floor_le s.tokens
    rw [← hFz] at h1
    exact_mod_cast h1
  have hFgt : s.tokens < ((⌊s.tokens⌋.toNat : ℕ) : ℚ) + 1 := by
    have h1 : s.tokens < ((⌊s.tokens⌋ : ℤ) : ℚ) + 1 := Int.lt_floor_add_one s.tokens
    rw [← hFz] at h1
    exact_mod_cast h1
  constructor
  · intro i
    obtain ⟨htokn, hcnt, henb, hlrn, hmax, hburst⟩ :=
      iterCheck_invariant s now hen hlr h0 htok hroom i
    by_cases hi : i < ⌊s.tokens⌋.toNat
    · have hmin : min i ⌊s.tokens⌋.toNat = i := min_eq_left (le_of_lt hi)
      have htokn2 : (iterCheck s now i).tokens = s.tokens - (i : ℚ) := by
        rw [htokn, hmin]
      have hcost : (1 : ℚ) ≤ (iterCheck s now i).tokens := by
        rw [htokn2]
        have hn1 : ((i : ℚ) + 1) ≤ ((⌊s.tokens⌋.toNat : ℕ) : ℚ) := by
          exact_mod_cast Nat.succ_le_of_lt hi
        linarith [hFle]
      have htokB : (iterCheck s now i).tokens ≤ ((iterCheck s now i).burstSize : ℚ) := by
        rw [htokn2, hburst]
        have : (0 : ℚ) ≤ (i : ℚ) := by positivity
        linarith [htok]
      have hhourn : ((iterCheck s now i).requestCounts (hourIndex now) : ℤ)
          < (iterCheck s now i).maxRequests := by
        rw [hcnt, hmax, hmin]
        push_cast
        omega
      have ha :=
        (checkRequest_consume (iterCheck s now i) now 1 henb hlrn htokB hhourn hcost).1
      rw [iterOutcome, ha]
      simp only [true_iff]
      omega
    · have hge : ⌊s.tokens⌋.toNat ≤ i := le_of_not_lt hi
      have hmin : min i ⌊s.tokens⌋.toNat = ⌊s.tokens⌋.toNat := min_eq_right hge
      have htokn2 : (iterCheck s now i).tokens
          = s.tokens - ((⌊s.tokens⌋.toNat : ℕ) : ℚ) := by
        rw [htokn, hmin]
      have hcost : (iterCheck s now i).tokens < 1 := by
        rw [htokn2]
        linarith [hFgt]
      have htokB : (iterCheck s now i).tokens ≤ ((iterCheck s now i).burstSize : ℚ) := by
        rw [htokn2, hburst]
        have : (0 : ℚ) ≤ ((⌊s.tokens⌋.toNat : ℕ) : ℚ) := by positivity
        linarith [htok]
      have hhourn : ((iterCheck s now i).requestCounts (hourIndex now) : ℤ)
          < (iterCheck s now i).maxRequests := by
        rw [hcnt, hmax, hmin]
        push_cast
        omega
      have ha :=
        (checkRequest_burst_reject (iterCheck s now i) now 1 henb hlrn htokB hhourn hcost).1
      rw [iterOutcome, ha]
      constructor
      · intro hcontra
        exact absurd hcontra (by simp)
      · intro hcontra
        omega
  · intro cost hc
    have hhour : (s.requestCounts (hourIndex now) : ℤ) < s.maxRequests := by
      have hfl : (0 : ℤ) ≤ ⌊s.tokens⌋ := Int.floor_nonneg.mpr h0
      omega
    exact (checkRequest_consume s now cost hen hlr htok hhour (le_of_eq hc)).1

/-- Witness state for C2: enabled limiter, `tokens = 5/2`, fresh hour. -/
def rlTokenState : RateLimiterState :=
  { maxRequests := 1000
    burstSize := 10
    enabled := true
    tokens := 5/2
    lastRefill := 0
    refillRate := 1000 / 3600000
    requestCounts := fun _ => 0
    lastCleanup := 0
    warningThreshold := 4/5
    hasWarned := false
    totalRequests := 0
    blockedRequests := 0
    lastBlockedAt := none
    hourlyPeaks := fun _ => 0 }

/-- Witness for claim C2: with `tokens = 5/2`, call 1 (0-based) is admitted
and call 2 is rejected — exactly `⌊5/2⌋ = 2` admissions. -/
theorem claim_c2_witness :
    (iterOutcome rlTokenState 0 1).isAllowed = true
    ∧ (iterOutcome rlTokenState 0 2).isAllowed = false := by
  have h := (claim_c2_token_bucket_floor rlTokenState 0 rfl rfl
    (by norm_num [rlTokenState]) (by norm_num [rlTokenState])
    (by norm_num [rlTokenState])).1
  constructor
  · exact (h 1).mpr (by norm_num [rlTokenState])
  · have h2 := h 2
    by_contra hcontra
    have : (iterOutcome rlTokenState 0 2).isAllowed = true := by
      cases hx : (iterOutcome rlTokenState 0 2).isAllowed
      · exact absurd hx hcontra
      · rfl
    have := h2.mp this
    norm_num [rlTokenState] at this

/-- Claim C1: with rate limiting enabled, once the current hour-bucket count
has reached `maxRequests`, `checkRequest` throws a `RateLimitError` whose
`resetTime` is the start of the next hour-bucket
(`(currentHour + 1) * 3600000`), with `limit = maxRequests` and
`remaining = maxRequests - count`, incrementing `blockedRequests` and setting
`lastBlockedAt` — for every token balance and request cost, because the
hourly check is decided before the token-bucket check. -/
theorem claim_c1_hourly_cap_hard (s : RateLimiterState) (now : ℤ) (cost : ℚ)
    (hen : s.enabled = true)
    (hfull : (s.requestCounts (hourIndex now) : ℤ) ≥ s.maxRequests) :
    (checkRequest s now cost).2 =
      .rejected ⟨s.maxRequests, s.maxRequests - (s.requestCounts (hourIndex now) : ℤ),
        (((hourIndex now + 1) * 3600000 : ℤ) : ℚ)⟩
    ∧ (checkRequest s now cost).1.blockedRequests = s.blockedRequests + 1
    ∧ (checkRequest s now cost).1.lastBlockedAt = some now := by
  simp only [checkRequest, hen, Bool.true_eq_false, if_false,
    cleanupOldCounts_counts_current, refillTokens_requestCounts,
    cleanupOldCounts_maxRequests, refillTokens_maxRequests, ge_iff_le]
  rw [if_pos hfull]
  refine ⟨rfl, ?_, rfl⟩
  simp

/-- Witness for C1: a limiter whose current hour already holds
`maxRequests = 2` admissions rejects with the next-hour reset instant. -/
def rlFullState : RateLimiterState :=
  { maxRequests := 2
    burstSize := 10
    enabled := true
    tokens := 7
    lastRefill := 0
    refillRate := 2 / 3600000
    requestCounts := fun h => if h = 0 then 2 else 0
    lastCleanup := 0
    warningThreshold := 4/5
    hasWarned := false
    totalRequests := 2
    blockedRequests := 0
    lastBlockedAt := none
    hourlyPeaks := fun h => if h = 0 then 2 else 0 }

/-- Witness for claim C1 at the concrete state `rlFullState`, instant `0`,
cost `1`. -/
theorem claim_c1_witness :
    (checkRequest rlFullState 0 1).2 =
      .rejected ⟨2, 0, ((3600000 : ℤ) : ℚ)⟩
    ∧ (checkRequest rlFullState 0 1).1.blockedRequests = 1 := by
  have h := claim_c1_hourly_cap_hard rlFullState 0 1 rfl (by norm_num [rlFullState, hourIndex])
  refine ⟨?_, ?_⟩
  · rw [h.1]
    norm_num [rlFullState, hourIndex]
  · rw [h.2.1]
    norm_num [rlFullState]

/-- Claim C7: a refill (`_refillTokens`, as invoked by `getStatus` and
`checkRequest`) changes the token count by exactly
`min (capacity - previousTokens) (elapsed * refillRatePerMs)`, never lets it
exceed the capacity (`burstSize`), and advances `lastRefill` to the current
instant. -/
theorem claim_c7_refill_correctness (s : RateLimiterState) (now : ℤ) :
    (refillTokens now s).tokens =
      s.tokens + min ((s.burstSize : ℚ) - s.tokens)
        (((now - s.lastRefill : ℤ) : ℚ) * s.refillRate)
    ∧ (refillTokens now s).tokens ≤ (s.burstSize : ℚ)
    ∧ (refillTokens now s).lastRefill = now := by
  refine ⟨?_, ?_, rfl⟩
  · rw [refillTokens_tokens]
    rw [← min_add_add_left s.tokens ((s.burstSize : ℚ) - s.tokens)]
    ring_nf
  · rw [refillTokens_tokens]
    exact min_le_left _ _

/-- Multi-batch branch of `calculateOptimalTiming`: when `requestCount`
exceeds `min(remainingRequests, availableTokens)`, the returned plan rejects
with the 80%-margin batch size, the batch count and the refill delay. -/
lemma calculateOptimalTiming_batch (s : RateLimiterState) (now rc : ℤ)
    (h : min (getStatus s now).remainingRequests (getStatus s now).availableTokens < rc) :
    (calculateOptimalTiming s now rc).canProceed = false
    ∧ (calculateOptimalTiming s now rc).batchSize =
        ⌊((min (getStatus s now).remainingRequests (getStatus s now).availableTokens : ℤ) : ℚ)
          * (4/5)⌋
    ∧ (calculateOptimalTiming s now rc).batches =
        some ⌈(rc : ℚ) /
          ((⌊((min (getStatus s now).remainingRequests
              (getStatus s now).availableTokens : ℤ) : ℚ) * (4/5)⌋ : ℤ) : ℚ)⌉
    ∧ (calculateOptimalTiming s now rc).delay =
        ⌈((⌊((min (getStatus s now).remainingRequests
            (getStatus s now).availableTokens : ℤ) : ℚ) * (4/5)⌋ : ℤ) : ℚ) / s.refillRate⌉ := by
  simp only [calculateOptimalTiming]
  rw [if_neg (not_le.mpr h)]
  exact ⟨rfl, rfl, rfl, rfl⟩

/-- Claim C6: `calculateOptimalTiming(requestCount)` approves immediately
(`canProceed = true`, `delay = 0`, `batchSize = requestCount`) whenever
`requestCount ≤ min(remainingRequests, availableTokens)`; otherwise it
returns `canProceed = false` with `batchSize = ⌊min * 0.8⌋`,
`batches = ⌈requestCount / batchSize⌉` and
`delay = ⌈batchSize / refillRatePerMs⌉`; in particular with
`requestCount = 250`, `remainingRequests = 100`, `availableTokens = 10` the
plan has `canProceed = false`, `batchSize = 8`, `batches = 32`. -/
theorem claim_c6_optimal_timing (s : RateLimiterState) (now rc : ℤ) :
    (rc ≤ min (getStatus s now).remainingRequests (getStatus s now).availableTokens →
      calculateOptimalTiming s now rc =
        { canProceed := true, delay := 0, batchSize := rc,
          batches := none, totalTime := none })
    ∧ (min (getStatus s now).remainingRequests (getStatus s now).availableTokens < rc →
      (calculateOptimalTiming s now rc).canProceed = false
      ∧ (calculateOptimalTiming s now rc).batchSize =
          ⌊((min (getStatus s now).remainingRequests (getStatus s now).availableTokens : ℤ) : ℚ)
            * (4/5)⌋
      ∧ (calculateOptimalTiming s now rc).batches =
          some ⌈(rc : ℚ) /
            ((⌊((min (getStatus s now).remainingRequests
                (getStatus s now).availableTokens : ℤ) : ℚ) * (4/5)⌋ : ℤ) : ℚ)⌉
      ∧ (calculateOptimalTiming s now rc).delay =
          ⌈((⌊((min (getStatus s now).remainingRequests
              (getStatus s now).availableTokens : ℤ) : ℚ) * (4/5)⌋ : ℤ) : ℚ) / s.refillRate⌉)
    ∧ ((getStatus s now).remainingRequests = 100 →
        (getStatus s now).availableTokens = 10 → rc = 250 →
      (calculateOptimalTiming s now rc).canProceed = false
      ∧ (calculateOptimalTiming s now rc).batchSize = 8
      ∧ (calculateOptimalTiming s now rc).batches = some 32) := by
  refine ⟨?_, ?_, ?_⟩
  · intro h
    simp only [calculateOptimalTiming]
    rw [if_pos h]
  · exact calculateOptimalTiming_batch s now rc
  · intro h1 h2 h3
    subst h3
    simp only [calculateOptimalTiming, h1, h2]
    norm_num
    norm_num [Int.ceil_eq_iff]

/-- Witness state for C6 scenario B: `maxRequests = 1000` with 900 requests
already counted this hour (`remainingRequests = 100`) and `tokens = 10`. -/
def rlScenarioB : RateLimiterState :=
  { maxRequests := 1000
    burstSize := 100
    enabled := true
    tokens := 10
    lastRefill := 0
    refillRate := 1000 / 3600000
    requestCounts := fun h => if h = 0 then 900 else 0
    lastCleanup := 0
    warningThreshold := 4/5
    hasWarned := true
    totalRequests := 900
    blockedRequests := 0
    lastBlockedAt := none
    hourlyPeaks := fun h => if h = 0 then 900 else 0 }

/-- Witness for claim C6 at the concrete scenario-B state. -/
theorem claim_c6_witness :
    (calculateOptimalTiming rlScenarioB 0 250).canProceed = false
    ∧ (calculateOptimalTiming rlScenarioB 0 250).batchSize = 8
    ∧ (calculateOptimalTiming rlScenarioB 0 250).batches = some 32 := by
  have h1 : (getStatus rlScenarioB 0).remainingRequests = 100 := by
    norm_num [getStatus, rlScenarioB, hourIndex, refillTokens]
  have h2 : (getStatus rlScenarioB 0).availableTokens = 10 := by
    norm_num [getStatus, rlScenarioB, hourIndex, refillTokens]
  exact (claim_c6_optimal_timing rlScenarioB 0 250).2.2 h1 h2 rfl

/-- Counterexample state for C10: after 1 admitted request in the current
hour, `updateConfig({maxRequests: 0})` leaves `remainingRequests = -1`, so
`min(remainingRequests, availableTokens) = -1 ≤ 1`, yet
`⌊min * 0.8⌋ = -1 ≠ 0`. -/
def rlNegState : RateLimiterState :=
  { maxRequests := 0
    burstSize := 10
    enabled := true
    tokens := 5
    lastRefill := 0
    refillRate := 0
    requestCounts := fun h => if h = 0 then 1 else 0
    lastCleanup := 0
    warningThreshold := 4/5
    hasWarned := false
    totalRequests := 1
    blockedRequests := 0
    lastBlockedAt := none
    hourlyPeaks := fun h => if h = 0 then 1 else 0 }

/-- Counterexample for claim C10 as stated: at `rlNegState` the safe
minimum is `-1 ≤ 1` and `requestCount = 250` exceeds it, but the returned
`batchSize` is `⌊-0.8⌋ = -1`, not `0`. -/
theorem claim_c10_counterexample :
    min (getStatus rlNegState 0).remainingRequests (getStatus rlNegState 0).availableTokens = -1
    ∧ (-1 : ℤ) ≤ 1
    ∧ (250 : ℤ) > -1
    ∧ (calculateOptimalTiming rlNegState 0 250).batchSize = -1
    ∧ ¬ (calculateOptimalTiming rlNegState 0 250).batchSize = 0 := by
  have h1 : (getStatus rlNegState 0).remainingRequests = -1 := by
    norm_num [getStatus, rlNegState, hourIndex, refillTokens]
  have h2 : (getStatus rlNegState 0).availableTokens = 5 := by
    norm_num [getStatus, rlNegState, hourIndex, refillTokens]
  have hb := calculateOptimalTiming_batch rlNegState 0 250 (by rw [h1, h2]; norm_num)
  have hbs : (calculateOptimalTiming rlNegState 0 250).batchSize = -1 := by
    rw [hb.2.1, h1, h2]
    norm_num
  refine ⟨by rw [h1, h2]; norm_num, by norm_num, by norm_num, hbs, by rw [hbs]; norm_num⟩

/-- Claim C10 (amended): for every state where
`0 ≤ min(remainingRequests, availableTokens) ≤ 1` and `requestCount` exceeds
that minimum, `calculateOptimalTiming` computes `⌊min * 0.8⌋ = 0` and then
divides by it with no guard and no thrown error: the plan has
`canProceed = false`, `batchSize = 0` and
`batches = ⌈requestCount / 0⌉` (the unguarded division by zero; JS produces
`Infinity` where this rational embedding evaluates `x / 0 = 0`).  The
original claim's `batchSize = 0` fails when the minimum is negative, which
`updateConfig` can produce. -/
theorem claim_c10_amended (s : RateLimiterState) (now rc : ℤ)
    (h0 : 0 ≤ min (getStatus s now).remainingRequests (getStatus s now).availableTokens)
    (h1 : min (getStatus s now).remainingRequests (getStatus s now).availableTokens ≤ 1)
    (hrc : min (getStatus s now).remainingRequests (getStatus s now).availableTokens < rc) :
    (calculateOptimalTiming s now rc).canProceed = false
    ∧ (calculateOptimalTiming s now rc).batchSize = 0
    ∧ (calculateOptimalTiming s now rc).batches = some ⌈(rc : ℚ) / ((0 : ℤ) : ℚ)⌉ := by
  have hc := calculateOptimalTiming_batch s now rc hrc
  have hfl : ⌊((min (getStatus s now).remainingRequests
      (getStatus s now).availableTokens : ℤ) : ℚ) * (4/5)⌋ = 0 := by
    interval_cases h :
      (min (getStatus s now).remainingRequests (getStatus s now).availableTokens)
    · norm_num
    · norm_num
  refine ⟨hc.1, ?_, ?_⟩
  · rw [hc.2.1, hfl]
  · rw [hc.2.2.1, hfl]

/-- Witness state for the amended C10: `remainingRequests = 1`,
`availableTokens = 9`, so the safe minimum is `1`. -/
def rlTightState : RateLimiterState :=
  { maxRequests := 2
    burstSize := 10
    enabled := true
    tokens := 9
    lastRefill := 0
    refillRate := 2 / 3600000
    requestCounts := fun h => if h = 0 then 1 else 0
    lastCleanup := 0
    warningThreshold := 4/5
    hasWarned := false
    totalRequests := 1
    blockedRequests := 0
    lastBlockedAt := none
    hourlyPeaks := fun h => if h = 0 then 1 else 0 }

/-- Witness for the amended claim C10 at the concrete state `rlTightState`
with `requestCount = 250`. -/
theorem claim_c10_witness :
    (calculateOptimalTiming rlTightState 0 250).canProceed = false
    ∧ (calculateOptimalTiming rlTightState 0 250).batchSize = 0
    ∧ (calculateOptimalTiming rlTightState 0 250).batches = some ⌈(250 : ℚ) / ((0 : ℤ) : ℚ)⌉ := by
  have h1 : (getStatus rlTightState 0).remainingRequests = 1 := by
    norm_num [getStatus, rlTightState, hourIndex, refillTokens]
  have h2 : (getStatus rlTightState 0).availableTokens = 9 := by
    norm_num [getStatus, rlTightState, hourIndex, refillTokens]
  exact claim_c10_amended rlTightState 0 250
    (by rw [h1, h2]; norm_num) (by rw [h1, h2]; norm_num) (by rw [h1, h2]; norm_num)

/-- A single `checkRequest` call can never clear a latched warning flag, and
while the flag is latched the internal `_checkWarningThreshold` signal is
never raised again (rejection paths never reach the threshold check at
all). -/
lemma checkRequest_hasWarned_latched (s : RateLimiterState) (now : ℤ) (cost : ℚ)
    (h : s.hasWarned = true) :
    (checkRequest s now cost).1.hasWarned = true
    ∧ (checkRequest s now cost).2.warned = false := by
  have hs2 : (cleanupOldCounts now (refillTokens now s)).hasWarned = true := by
    simp [h]
  simp only [checkRequest]
  split_ifs with h1 h2 h3 h4 <;>
    first
      | exact ⟨h, rfl⟩
      | exact ⟨hs2, rfl⟩
      | (rw [checkWarningThreshold_already _ _ (by simpa using hs2)]
         exact ⟨by simpa using hs2, rfl⟩)

/-- Multi-call version: the latch survives any sequence of `checkRequest`
calls, none of which signals. -/
lemma runChecks_hasWarned_latched (calls : List (ℤ × ℚ)) :
    ∀ s : RateLimiterState, s.hasWarned = true →
      (runChecks s calls).1.hasWarned = true
      ∧ ∀ o ∈ (runChecks s calls).2, o.warned = false := by
  induction calls with
  | nil => exact fun s h => ⟨h, by simp [runChecks]⟩
  | cons c cs ih =>
    intro s h
    obtain ⟨hstep1, hstep2⟩ := checkRequest_hasWarned_latched s c.1 c.2 h
    obtain ⟨hrest1, hrest2⟩ := ih (checkRequest s c.1 c.2).1 hstep1
    refine ⟨hrest1, ?_⟩
    intro o ho
    simp only [runChecks, List.mem_cons] at ho
    rcases ho with ho | ho
    · rw [ho]; exact hstep2
    · exact hrest2 o ho

/-- Claim C9: once the 80%-utilization warning flag (`hasWarned`) is set, no
subsequent sequence of `checkRequest` calls — at any instants, hence also
after a natural hour rollover with usage back above 80% — clears the flag or
raises the warning signal again; `updateConfig` (with any options) and
`reset` clear the flag. -/
theorem claim_c9_warning_latch (s : RateLimiterState) (h : s.hasWarned = true) :
    (∀ calls : List (ℤ × ℚ),
      (runChecks s calls).1.hasWarned = true
      ∧ ∀ o ∈ (runChecks s calls).2, o.warned = false)
    ∧ (∀ o : RateLimiterOptions, (updateConfig s o).hasWarned = false)
    ∧ (∀ now : ℤ, (reset s now).hasWarned = false) := by
  refine ⟨fun calls => runChecks_hasWarned_latched calls s h, fun o => rfl, fun now => rfl⟩

/-- Witness state for C9: the scenario-B limiter already carries
`hasWarned = true`; a call in a fresh hour (rollover) does not re-signal. -/
theorem claim_c9_witness :
    (runChecks rlScenarioB [((3600001 : ℤ), (1 : ℚ))]).1.hasWarned = true
    ∧ (updateConfig rlScenarioB {}).hasWarned = false := by
  have h := claim_c9_warning_latch rlScenarioB rfl
  exact ⟨(h.1 [((3600001 : ℤ), (1 : ℚ))]).1, h.2.1 {}⟩

section ErrorHandlerLemmas

variable (s : ErrorHandlerState) (now k : ℤ)

@[simp] lemma scheduleExit_isShuttingDown : (scheduleExit k s).1.isShuttingDown = true := by
  unfold scheduleExit; split
  · assumption
  · rfl

@[simp] lemma forceExit_isShuttingDown : (forceExit k s).1.isShuttingDown = true := by
  unfold forceExit; split
  · assumption
  · rfl

@[simp] lemma scheduleExit_criticalErrorTimes :
    (scheduleExit k s).1.criticalErrorTimes = s.criticalErrorTimes := by
  unfold scheduleExit; split <;> rfl

@[simp] lemma scheduleExit_maxCriticalErrors :
    (scheduleExit k s).1.maxCriticalErrors = s.maxCriticalErrors := by
  unfold scheduleExit; split <;> rfl

@[simp] lemma scheduleExit_criticalErrorWindow :
    (scheduleExit k s).1.criticalErrorWindow = s.criticalErrorWindow := by
  unfold scheduleExit; split <;> rfl

@[simp] lemma trackCriticalError_isShuttingDown :
    (trackCriticalError now s).isShuttingDown = s.isShuttingDown := rfl

@[simp] lemma trackCriticalError_maxCriticalErrors :
    (trackCriticalError now s).maxCriticalErrors = s.maxCriticalErrors := rfl

@[simp] lemma trackCriticalError_criticalErrorWindow :
    (trackCriticalError now s).criticalErrorWindow = s.criticalErrorWindow := rfl

lemma trackCriticalError_criticalErrorTimes :
    (trackCriticalError now s).criticalErrorTimes =
      (s.criticalErrorTimes ++ [now]).filter
        (fun t => decide (now - t < s.criticalErrorWindow)) := rfl

lemma trackCriticalError_criticalErrorCount :
    (trackCriticalError now s).criticalErrorCount =
      ((s.criticalErrorTimes ++ [now]).filter
        (fun t => decide (now - t < s.criticalErrorWindow))).length := rfl

/-- Any shutdown request on an already-shutting-down handler is a complete
no-op with zero termination commitments. -/
lemma applyExitCall_shutdown (c : ExitCall) (h : s.isShuttingDown = true) :
    applyExitCall s c = (s, 0) := by
  cases c <;> simp [applyExitCall, scheduleExit, forceExit, h]

/-- A shutdown request on a fresh handler commits exactly one termination
and latches the flag. -/
lemma applyExitCall_fresh (c : ExitCall) (h : s.isShuttingDown = false) :
    (applyExitCall s c).2 = 1 ∧ (applyExitCall s c).1.isShuttingDown = true := by
  cases c <;> simp [applyExitCall, scheduleExit, forceExit, h]

/-- A whole sequence of shutdown requests on an already-shutting-down
handler is a no-op. -/
lemma runExitCalls_shutdown (calls : List ExitCall) :
    ∀ s : ErrorHandlerState, s.isShuttingDown = true → runExitCalls s calls = (s, 0) := by
  induction calls with
  | nil => exact fun s _ => rfl
  | cons c cs ih =>
    intro s h
    simp only [runExitCalls, applyExitCall_shutdown s c h, ih s h]

/-- From a fresh handler, a nonempty sequence of shutdown requests commits
exactly one termination. -/
lemma runExitCalls_fresh (calls : List ExitCall) (h : s.isShuttingDown = false)
    (hne : calls ≠ []) : (runExitCalls s calls).2 = 1 := by
  cases calls with
  | nil => exact absurd rfl hne
  | cons c cs =>
    obtain ⟨h1, h2⟩ := applyExitCall_fresh s c h
    simp only [runExitCalls, runExitCalls_shutdown cs (applyExitCall s c).1 h2, h1]

end ErrorHandlerLemmas

/-- Claim C4: over every `_scheduleExit`/`_forceExit` call sequence at most
one process-termination side effect occurs; a first call on a fresh handler
commits exactly one termination and latches `isShuttingDown`; every call
while `isShuttingDown` holds is a complete no-op (total, never throws); and
from a fresh handler any nonempty sequence — `forceExit` twice, or
`scheduleExit` then `forceExit` — commits exactly one termination. -/
theorem claim_c4_idempotent_shutdown :
    (∀ (s : ErrorHandlerState) (calls : List ExitCall), (runExitCalls s calls).2 ≤ 1)
    ∧ (∀ (s : ErrorHandlerState) (c : ExitCall), s.isShuttingDown = false →
        (applyExitCall s c).2 = 1 ∧ (applyExitCall s c).1.isShuttingDown = true)
    ∧ (∀ (s : ErrorHandlerState) (c : ExitCall), s.isShuttingDown = true →
        applyExitCall s c = (s, 0))
    ∧ (∀ (s : ErrorHandlerState) (calls : List ExitCall), s.isShuttingDown = false →
        calls ≠ [] → (runExitCalls s calls).2 = 1) := by
  refine ⟨?_, fun s c h => applyExitCall_fresh s c h,
    fun s c h => applyExitCall_shutdown s c h,
    fun s calls h hne => runExitCalls_fresh s calls h hne⟩
  intro s calls
  cases hs : s.isShuttingDown
  · by_cases hc : calls = []
    · subst hc; simp [runExitCalls]
    · rw [runExitCalls_fresh s calls hs hc]
  · rw [runExitCalls_shutdown calls s hs]
    simp

/-- Witness for claim C4: `scheduleExit` then `forceExit` on a fresh handler
commits exactly one termination. -/
theorem claim_c4_witness :
    (runExitCalls (mkErrorHandler none) [.schedule 1, .force 1]).2 = 1 :=
  claim_c4_idempotent_shutdown.2.2.2 (mkErrorHandler none) [.schedule 1, .force 1]
    rfl (by simp)

/-- Claim C5: `handleError` on a `RateLimitError` — for every handler state,
instant, `code` and `exitCode` — returns `continues = true`, invokes neither
`_scheduleExit` nor `_forceExit`, and leaves the state (in particular the
critical-error window) completely unchanged, even though `RateLimitError` is
a subclass of `LoggerError`: the rate-limit branch of the dispatch chain is
selected before the generic `LoggerError` branch. -/
theorem claim_c5_rate_limit_never_escalates (s : ErrorHandlerState) (now : ℤ)
    (code : String) (exitCode : ℤ) :
    handleError s now ⟨.rateLimitError, code, exitCode⟩ =
      { state := s, continues := true, exits := [] }
    ∧ instanceofLoggerError .rateLimitError = true :=
  ⟨rfl, rfl⟩

/-- Concrete already-shutting-down handler state. -/
def ehShutState : ErrorHandlerState :=
  { isShuttingDown := true
    shutdownTimeout := some 1
    criticalErrorCount := 0
    maxCriticalErrors := 5
    criticalErrorWindow := 60000
    criticalErrorTimes := []
    exitOnAuthError := none }

/-- Counterexample for claim C8 as stated: `cleanup()` — a public operation
other than `cancelShutdown()` — resets a latched `isShuttingDown` back to
`false` (source line `this.isShuttingDown = false` at the end of
`cleanup`). -/
theorem claim_c8_counterexample :
    ehShutState.isShuttingDown = true ∧ (cleanup ehShutState).isShuttingDown = false :=
  ⟨rfl, rfl⟩

/-- Claim C8 (amended): once `isShuttingDown` is true it stays true across
`handleError` (any error), `scheduleExit`, `forceExit` and
`trackCriticalError`; it is reset to `false` by the test-only
`cancelShutdown()` and also by `cleanup()` — the source's `cleanup` ends
with `this.isShuttingDown = false`, so `cancelShutdown` is not the only
operation that clears the flag. -/
theorem claim_c8_amended (s : ErrorHandlerState) (h : s.isShuttingDown = true) :
    (∀ (now : ℤ) (e : JsErr), (handleError s now e).state.isShuttingDown = true)
    ∧ (∀ k : ℤ, (scheduleExit k s).1.isShuttingDown = true)
    ∧ (∀ k : ℤ, (forceExit k s).1.isShuttingDown = true)
    ∧ (∀ now : ℤ, (trackCriticalError now s).isShuttingDown = true)
    ∧ (cancelShutdown s).isShuttingDown = false
    ∧ (cleanup s).isShuttingDown = false := by
  refine ⟨?_, fun k => scheduleExit_isShuttingDown s k,
    fun k => forceExit_isShuttingDown s k, fun now => by simp [h], rfl, rfl⟩
  intro now e
  simp only [handleError]
  split_ifs <;> simp [h]

/-- Witness for the amended claim C8 at the concrete state `ehShutState`. -/
theorem claim_c8_witness :
    (handleError ehShutState 0 ⟨.loggerError, "CRITICAL_ERROR", 1⟩).state.isShuttingDown = true
    ∧ (cancelShutdown ehShutState).isShuttingDown = false := by
  have h := claim_c8_amended ehShutState rfl
  exact ⟨h.1 0 ⟨.loggerError, "CRITICAL_ERROR", 1⟩, h.2.2.2.2.1⟩

/-- On a critical-flagged generic `LoggerError` (not one of the specific
subclasses, `code` ∈ {CRITICAL_ERROR, FATAL_ERROR}), `handleError` reaches
the `_handleLoggerError` branch: it tracks the error and schedules an exit
iff the retained count reaches the threshold. -/
lemma handleError_generic_critical (s : ErrorHandlerState) (now : ℤ) (e : JsErr)
    (hcls : e.cls = .loggerError)
    (hcode : e.code = "CRITICAL_ERROR" ∨ e.code = "FATAL_ERROR") :
    handleError s now e =
      if (trackCriticalError now s).criticalErrorCount ≥
          (trackCriticalError now s).maxCriticalErrors then
        { state := (scheduleExit 1 (trackCriticalError now s)).1, continues := false,
          exits := [.schedule 1] }
      else
        { state := trackCriticalError now s, continues := true, exits := [] } := by
  have h1 : instanceofApplicationError e.cls = false := by rw [hcls]; rfl
  have h2 : instanceofAuthenticationError e.cls = false := by rw [hcls]; rfl
  have h3 : instanceofRateLimitError e.cls = false := by rw [hcls]; rfl
  have h4 : instanceofShutdownError e.cls = false := by rw [hcls]; rfl
  have h5 : instanceofLoggerError e.cls = true := by rw [hcls]; rfl
  have h6 : isCriticalError e = true := by
    unfold isCriticalError
    rw [h1, h2, h4]
    rcases hcode with hc | hc <;> rw [hc] <;> rfl
  simp only [handleError, h1, h2, h3, h4, h5, h6, Bool.false_eq_true, if_false, if_true]

/-- Non-triggering critical tracking step: if the retained filtered window
would stay below 5 (`maxCriticalErrors = 5`), the call continues, and the
new window is exactly the filtered push. -/
lemma handleError_crit_nontrigger (s : ErrorHandlerState) (now : ℤ) (e : JsErr)
    (hcls : e.cls = .loggerError)
    (hcode : e.code = "CRITICAL_ERROR" ∨ e.code = "FATAL_ERROR")
    (hmax : s.maxCriticalErrors = 5)
    (hcount : ((s.criticalErrorTimes ++ [now]).filter
      (fun t => decide (now - t < s.criticalErrorWindow))).length < 5) :
    (handleError s now e).continues = true
    ∧ (handleError s now e).state.criticalErrorTimes =
        (s.criticalErrorTimes ++ [now]).filter
          (fun t => decide (now - t < s.criticalErrorWindow))
    ∧ (handleError s now e).state.criticalErrorWindow = s.criticalErrorWindow
    ∧ (handleError s now e).state.maxCriticalErrors = 5 := by
  have hcond : ¬ ((trackCriticalError now s).criticalErrorCount ≥
      (trackCriticalError now s).maxCriticalErrors) := by
    rw [trackCriticalError_criticalErrorCount, trackCriticalError_maxCriticalErrors, hmax]
    omega
  rw [handleError_generic_critical s now e hcls hcode, if_neg hcond]
  exact ⟨rfl, rfl, rfl, hmax⟩

/-- In-window critical tracking step: with `window = 60000`, `max = 5`, when
every retained timestamp (and `now` itself) stays within the window, the new
window is the plain push, and the call continues while fewer than 5 entries
are retained. -/
lemma handleError_crit_keep5 (s : ErrorHandlerState) (now : ℤ) (e : JsErr)
    (hcls : e.cls = .loggerError)
    (hcode : e.code = "CRITICAL_ERROR" ∨ e.code = "FATAL_ERROR")
    (hwin : s.criticalErrorWindow = 60000) (hmax : s.maxCriticalErrors = 5)
    (hkeep : ∀ t ∈ s.criticalErrorTimes, now - t < 60000)
    (hlen : s.criticalErrorTimes.length + 1 < 5) :
    (handleError s now e).continues = true
    ∧ (handleError s now e).state.criticalErrorTimes = s.criticalErrorTimes ++ [now]
    ∧ (handleError s now e).state.criticalErrorWindow = 60000
    ∧ (handleError s now e).state.maxCriticalErrors = 5 := by
  have hfilter : (s.criticalErrorTimes ++ [now]).filter
      (fun t => decide (now - t < s.criticalErrorWindow)) = s.criticalErrorTimes ++ [now] := by
    apply List.filter_eq_self.mpr
    intro a ha
    rcases List.mem_append.mp ha with h | h
    · exact decide_eq_true (by rw [hwin]; exact hkeep a h)
    · have ha2 : a = now := by simpa using h
      subst ha2
      exact decide_eq_true (by rw [hwin]; omega)
  have hcount : ((s.criticalErrorTimes ++ [now]).filter
      (fun t => decide (now - t < s.criticalErrorWindow))).length < 5 := by
    rw [hfilter, List.length_append]
    simpa using hlen
  obtain ⟨hc, ht, hw2, hm2⟩ := handleError_crit_nontrigger s now e hcls hcode hmax hcount
  exact ⟨hc, by rw [ht, hfilter], by rw [hw2, hwin], hm2⟩

/-- Triggering critical tracking step: with `window = 60000`, `max = 5`,
everything retained in-window and at least 5 entries after the push, the
call returns `continues = false` and schedules the exit
(`isShuttingDown` latches). -/
lemma handleError_crit_trigger5 (s : ErrorHandlerState) (now : ℤ) (e : JsErr)
    (hcls : e.cls = .loggerError)
    (hcode : e.code = "CRITICAL_ERROR" ∨ e.code = "FATAL_ERROR")
    (hwin : s.criticalErrorWindow = 60000) (hmax : s.maxCriticalErrors = 5)
    (hkeep : ∀ t ∈ s.criticalErrorTimes, now - t < 60000)
    (hlen : 5 ≤ s.criticalErrorTimes.length + 1) :
    (handleError s now e).continues = false
    ∧ (handleError s now e).state.isShuttingDown = true := by
  have hfilter : (s.criticalErrorTimes ++ [now]).filter
      (fun t => decide (now - t < s.criticalErrorWindow)) = s.criticalErrorTimes ++ [now] := by
    apply List.filter_eq_self.mpr
    intro a ha
    rcases List.mem_append.mp ha with h | h
    · exact decide_eq_true (by rw [hwin]; exact hkeep a h)
    · have ha2 : a = now := by simpa using h
      subst ha2
      exact decide_eq_true (by rw [hwin]; omega)
  have hcond : (trackCriticalError now s).criticalErrorCount ≥
      (trackCriticalError now s).maxCriticalErrors := by
    rw [trackCriticalError_criticalErrorCount, trackCriticalError_maxCriticalErrors, hmax,
      hfilter, List.length_append]
    simpa using hlen
  rw [handleError_generic_critical s now e hcls hcode, if_pos hcond]
  exact ⟨rfl, by simp⟩

/-- Claim C3: with the default `maxCriticalErrors = 5` and
`criticalErrorWindow = 60000`, feeding 5 critical-flagged generic
`LoggerError`s (instanceof `LoggerError`, none of the specific subclasses,
`code` CRITICAL_ERROR or FATAL_ERROR) to `handleError` at non-decreasing
instants: if all 5 fall within 60 seconds, calls 1–4 return `true` and the
5th returns `false` (scheduling an exit, latching `isShuttingDown`); if the
timestamps span 61 seconds or more, all 5 calls return `true` — the retained
window count never reaches 5. -/
theorem claim_c3_critical_burst (e : JsErr) (s0 : ErrorHandlerState)
    (t1 t2 t3 t4 t5 : ℤ)
    (hcls : e.cls = .loggerError)
    (hcode : e.code = "CRITICAL_ERROR" ∨ e.code = "FATAL_ERROR")
    (hmax : s0.maxCriticalErrors = 5) (hwin : s0.criticalErrorWindow = 60000)
    (hfresh : s0.criticalErrorTimes = [])
    (h12 : t1 ≤ t2) (h23 : t2 ≤ t3) (h34 : t3 ≤ t4) (h45 : t4 ≤ t5) :
    (t5 - t1 < 60000 →
      (handleErrSeq e s0 [t1, t2, t3, t4, t5]).2 = [true, true, true, true, false]
      ∧ (handleErrSeq e s0 [t1, t2, t3, t4, t5]).1.isShuttingDown = true)
    ∧ (61000 ≤ t5 - t1 →
      (handleErrSeq e s0 [t1, t2, t3, t4, t5]).2 = [true, true, true, true, true]) := by
  constructor
  · intro hspan
    simp only [handleErrSeq]
    obtain ⟨c1, T1eq, W1, M1⟩ := handleError_crit_keep5 s0 t1 e hcls hcode hwin hmax
      (by rw [hfresh]; intro t ht; simp at ht)
      (by rw [hfresh]; norm_num)
    rw [c1]
    generalize hg1 : (handleError s0 t1 e).state = s1
    rw [hg1] at T1eq W1 M1
    have T1 : s1.criticalErrorTimes = [t1] := by
      rw [T1eq, hfresh]
      rfl
    obtain ⟨c2, T2eq, W2, M2⟩ := handleError_crit_keep5 s1 t2 e hcls hcode W1 M1
      (by rw [T1]; intro t ht; simp at ht; subst ht; omega)
      (by rw [T1]; norm_num)
    rw [c2]
    generalize hg2 : (handleError s1 t2 e).state = s2
    rw [hg2] at T2eq W2 M2
    have T2 : s2.criticalErrorTimes = [t1, t2] := by rw [T2eq, T1]; rfl
    obtain ⟨c3, T3eq, W3, M3⟩ := handleError_crit_keep5 s2 t3 e hcls hcode W2 M2
      (by rw [T2]; intro t ht; simp at ht; rcases ht with h | h <;> subst h <;> omega)
      (by rw [T2]; norm_num)
    rw [c3]
    generalize hg3 : (handleError s2 t3 e).state = s3
    rw [hg3] at T3eq W3 M3
    have T3 : s3.criticalErrorTimes = [t1, t2, t3] := by rw [T3eq, T2]; rfl
    obtain ⟨c4, T4eq, W4, M4⟩ := handleError_crit_keep5 s3 t4 e hcls hcode W3 M3
      (by rw [T3]; intro t ht; simp at ht; rcases ht with h | h | h <;> subst h <;> omega)
      (by rw [T3]; norm_num)
    rw [c4]
    generalize hg4 : (handleError s3 t4 e).state = s4
    rw [hg4] at T4eq W4 M4
    have T4 : s4.criticalErrorTimes = [t1, t2, t3, t4] := by rw [T4eq, T3]; rfl
    obtain ⟨c5, S5⟩ := handleError_crit_trigger5 s4 t5 e hcls hcode W4 M4
      (by rw [T4]; intro t ht; simp at ht; rcases ht with h | h | h | h <;> subst h <;> omega)
      (by rw [T4]; norm_num)
    rw [c5]
    exact ⟨rfl, S5⟩
  · intro hspan
    simp only [handleErrSeq]
    obtain ⟨c1, T1eq, W1, M1⟩ := handleError_crit_nontrigger s0 t1 e hcls hcode hmax
      (by
        rw [hfresh]
        have hlf := List.length_filter_le
          (fun t => decide (t1 - t < s0.criticalErrorWindow)) (([] : List ℤ) ++ [t1])
        rw [List.length_append] at hlf
        simp only [List.length_cons, List.length_nil] at hlf
        omega)
    rw [c1]
    generalize hg1 : (handleError s0 t1 e).state = s1
    rw [hg1] at T1eq W1 M1
    have W1a : s1.criticalErrorWindow = 60000 := by rw [W1, hwin]
    have sub1 : List.Sublist s1.criticalErrorTimes [t1] := by
      rw [T1eq, hfresh]
      simpa using List.filter_sublist
        (p := fun t => decide (t1 - t < s0.criticalErrorWindow)) [t1]
    have len1 : s1.criticalErrorTimes.length ≤ 1 := by
      simpa using sub1.length_le
    obtain ⟨c2, T2eq, W2, M2⟩ := handleError_crit_nontrigger s1 t2 e hcls hcode M1
      (by
        have hlf := List.length_filter_le
          (fun t => decide (t2 - t < s1.criticalErrorWindow)) (s1.criticalErrorTimes ++ [t2])
        rw [List.length_append] at hlf
        simp only [List.length_cons, List.length_nil] at hlf
        omega)
    rw [c2]
    generalize hg2 : (handleError s1 t2 e).state = s2
    rw [hg2] at T2eq W2 M2
    have W2a : s2.criticalErrorWindow = 60000 := by rw [W2, W1a]
    have sub2 : List.Sublist s2.criticalErrorTimes [t1, t2] := by
      rw [T2eq]
      exact (List.filter_sublist _).trans
        (List.Sublist.append sub1 (List.Sublist.refl [t2]))
    have len2 : s2.criticalErrorTimes.length ≤ 2 := by
      simpa using sub2.length_le
    obtain ⟨c3, T3eq, W3, M3⟩ := handleError_crit_nontrigger s2 t3 e hcls hcode M2
      (by
        have hlf := List.length_filter_le
          (fun t => decide (t3 - t < s2.criticalErrorWindow)) (s2.criticalErrorTimes ++ [t3])
        rw [List.length_append] at hlf
        simp only [List.length_cons, List.length_nil] at hlf
        omega)
    rw [c3]
    generalize hg3 : (handleError s2 t3 e).state = s3
    rw [hg3] at T3eq W3 M3
    have W3a : s3.criticalErrorWindow = 60000 := by rw [W3, W2a]
    have sub3 : List.Sublist s3.criticalErrorTimes [t1, t2, t3] := by
      rw [T3eq]
      exact (List.filter_sublist _).trans
        (List.Sublist.append sub2 (List.Sublist.refl [t3]))
    have len3 : s3.criticalErrorTimes.length ≤ 3 := by
      simpa using sub3.length_le
    obtain ⟨c4, T4eq, W4, M4⟩ := handleError_crit_nontrigger s3 t4 e hcls hcode M3
      (by
        have hlf := List.length_filter_le
          (fun t => decide (t4 - t < s3.criticalErrorWindow)) (s3.criticalErrorTimes ++ [t4])
        rw [List.length_append] at hlf
        simp only [List.length_cons, List.length_nil] at hlf
        omega)
    rw [c4]
    generalize hg4 : (handleError s3 t4 e).state = s4
    rw [hg4] at T4eq W4 M4
    have W4a : s4.criticalErrorWindow = 60000 := by rw [W4, W3a]
    have sub4 : List.Sublist s4.criticalErrorTimes [t1, t2, t3, t4] := by
      rw [T4eq]
      exact (List.filter_sublist _).trans
        (List.Sublist.append sub3 (List.Sublist.refl [t4]))
    obtain ⟨c5, _, _, _⟩ := handleError_crit_nontrigger s4 t5 e hcls hcode M4
      (by
        simp only [W4a]
        rw [List.filter_append, List.length_append]
        have hdrop : List.filter (fun t => decide (t5 - t < 60000)) [t1, t2, t3, t4]
            = List.filter (fun t => decide (t5 - t < 60000)) [t2, t3, t4] := by
          apply List.filter_cons_of_neg
          simp only [decide_eq_true_eq]
          omega
        have hsubf : List.Sublist
            (List.filter (fun t => decide (t5 - t < 60000)) s4.criticalErrorTimes)
            (List.filter (fun t => decide (t5 - t < 60000)) [t1, t2, t3, t4]) :=
          List.Sublist.filter _ sub4
        have hA : (List.filter (fun t => decide (t5 - t < 60000))
            s4.criticalErrorTimes).length ≤ 3 := by
          have h1 := hsubf.length_le
          rw [hdrop] at h1
          have h2 := List.length_filter_le (fun t => decide (t5 - t < 60000)) [t2, t3, t4]
          simp only [List.length_cons, List.length_nil] at h2
          omega
        have hB := List.length_filter_le (fun t => decide (t5 - t < 60000)) [t5]
        simp only [List.length_cons, List.length_nil] at hB
        omega)
    rw [c5]

/-- Witness for claim C3: five CRITICAL_ERROR-coded generic LoggerErrors at
instants 0, 10000, 20000, 30000, 50000 (span 50 s) on a fresh handler yield
`[true, true, true, true, false]`. -/
theorem claim_c3_witness :
    (handleErrSeq ⟨.loggerError, "CRITICAL_ERROR", 1⟩ (mkErrorHandler none)
      [0, 10000, 20000, 30000, 50000]).2 = [true, true, true, true, false] :=
  ((claim_c3_critical_burst ⟨.loggerError, "CRITICAL_ERROR", 1⟩ (mkErrorHandler none)
    0 10000 20000 30000 50000 rfl (Or.inl rfl) rfl rfl rfl
    (by norm_num) (by norm_num) (by norm_num) (by norm_num)).1 (by norm_num)).1

end LoggerSimple
